import Mathlib

/-!
Shallow embedding of a small banking ledger service (`src/main.py`, with the
two superseded loan-flow variants of `src/Reference.py`).

Python `dict[int, V]` stores are modelled as association lists with
first-match lookup and in-place-replace insert, `float` amounts as `Rat`,
and `raise HTTPException(status_code, detail)` as an `Except` error value
carrying the same status code and detail string.  Each endpoint handler
becomes a function from the global state (the two dicts) and its typed
arguments to a result together with the state after the call.
-/

namespace Banking

/-- Mirrors the pydantic `User` model: id, display name, balance. -/
structure User where
  id : Int
  name : String
  balance : Rat
deriving DecidableEq

/-- Mirrors the pydantic `Loan` model: owning user's id and principal amount. -/
structure Loan where
  user_id : Int
  amount : Rat
deriving DecidableEq

/-- Mirrors the `TransactionType` enum with values `debit` and `credit`. -/
inductive TransactionType
  | debit
  | credit
deriving DecidableEq

/-- Mirrors the pydantic `Transaction` model: a type and an amount. -/
structure Transaction where
  type : TransactionType
  amount : Rat
deriving DecidableEq

/-- Mirrors the pydantic `BalanceResponse` model returned by the balance view. -/
structure BalanceResponse where
  user_id : Int
  name : String
  current_balance : Rat
  loan_details : Option Loan
deriving DecidableEq

/-- Mirrors `fastapi.HTTPException`: an HTTP status code plus a detail string. -/
structure HTTPException where
  status_code : Nat
  detail : String
deriving DecidableEq

/-- Python `dict.get`: first binding for the key, `none` when absent. -/
def dictGet {β : Type} (k : Int) : List (Int × β) → Option β
  | [] => none
  | (k', v) :: rest => if k = k' then some v else dictGet k rest

/-- Python `d[k] = v`: replace the binding for `k` in place, or append a new one. -/
def dictInsert {β : Type} (k : Int) (v : β) : List (Int × β) → List (Int × β)
  | [] => [(k, v)]
  | (k', v') :: rest =>
    if k = k' then (k, v) :: rest else (k', v') :: dictInsert k v rest

/-- The global mutable state: `users_db` and `loans_db`, both keyed by user id. -/
structure BankState where
  users_db : List (Int × User)
  loans_db : List (Int × Loan)
deriving DecidableEq

/-- The initial state of the process: both dicts empty. -/
def emptyBank : BankState := ⟨[], []⟩

/-- Mirrors `find_user_by_id`: `users_db.get(user_id)`. -/
def find_user_by_id (s : BankState) (user_id : Int) : Option User :=
  dictGet user_id s.users_db

/-- Mirrors `find_loan_by_user_id`: `loans_db.get(user_id)`. -/
def find_loan_by_user_id (s : BankState) (user_id : Int) : Option Loan :=
  dictGet user_id s.loans_db

/-- Detail string of the 404 raised when a user id is not in `users_db`. -/
def userNotFoundDetail (user_id : Int) : String :=
  "User with ID " ++ toString user_id ++ " not found."

/-- Detail string of the 400 raised by `create_user` on a duplicate id. -/
def userExistsDetail (user_id : Int) : String :=
  "User with ID " ++ toString user_id ++ " already exists."

/-- Detail string of the 400 raised by `take_loan` when a loan already exists. -/
def hasLoanDetail (user_id : Int) : String :=
  "User " ++ toString user_id ++ " already has an active loan."

/-- Mirrors the `create_user` endpoint of `src/main.py`: reject a duplicate id
with a 400, otherwise store a `User` whose balance is forced to `0.0`
regardless of the balance carried by the input, and return it. -/
def create_user (s : BankState) (user_input : User) :
    Except HTTPException User × BankState :=
  if (dictGet user_input.id s.users_db).isSome then
    (Except.error ⟨400, userExistsDetail user_input.id⟩, s)
  else
    let new_user : User := ⟨user_input.id, user_input.name, 0⟩
    (Except.ok new_user,
      { s with users_db := dictInsert new_user.id new_user s.users_db })

/-- Mirrors the `perform_transaction` endpoint body of `src/main.py`:
404 when the user is absent, 400 when the amount is not positive, for a
debit a 400 when funds are insufficient and otherwise a balance decrease,
for a credit an unconditional balance increase. -/
def perform_transaction (s : BankState) (user_id : Int)
    (transaction : Transaction) : Except HTTPException User × BankState :=
  match find_user_by_id s user_id with
  | none => (Except.error ⟨404, userNotFoundDetail user_id⟩, s)
  | some user =>
    if transaction.amount ≤ 0 then
      (Except.error ⟨400, "Transaction amount must be positive."⟩, s)
    else
      match transaction.type with
      | TransactionType.debit =>
        if user.balance < transaction.amount then
          (Except.error ⟨400, "Insufficient funds for debit."⟩, s)
        else
          let user' : User := { user with balance := user.balance - transaction.amount }
          (Except.ok user', { s with users_db := dictInsert user_id user' s.users_db })
      | TransactionType.credit =>
        let user' : User := { user with balance := user.balance + transaction.amount }
        (Except.ok user', { s with users_db := dictInsert user_id user' s.users_db })

/-- Mirrors the `take_loan` endpoint body of `src/main.py` (the direct-call
variant): 404 when the user is absent, 400 when a loan already exists, then a
direct call to `perform_transaction` with a credit for the loan amount; an
`HTTPException` from that call is re-raised unchanged, and only after the
credit succeeds is the loan recorded and returned. -/
def take_loan (s : BankState) (user_id : Int) (loan_amount : Rat) :
    Except HTTPException Loan × BankState :=
  match find_user_by_id s user_id with
  | none => (Except.error ⟨404, userNotFoundDetail user_id⟩, s)
  | some _user =>
    if (find_loan_by_user_id s user_id).isSome then
      (Except.error ⟨400, hasLoanDetail user_id⟩, s)
    else
      match perform_transaction s user_id ⟨TransactionType.credit, loan_amount⟩ with
      | (Except.error e, s') => (Except.error e, s')
      | (Except.ok _updated_user, s') =>
        let new_loan : Loan := ⟨user_id, loan_amount⟩
        (Except.ok new_loan,
          { s' with loans_db := dictInsert user_id new_loan s'.loans_db })

/-- Mirrors `get_internal_loan_info`: a bare loan lookup. -/
def get_internal_loan_info (s : BankState) (user_id : Int) : Option Loan :=
  find_loan_by_user_id s user_id

/-- Result of the `try`/`except` around the loan-details fetch inside the
balance view: a successful fetch yields its value, any raised exception is
swallowed and degrades to `none`. -/
def loan_details_of (loan_fetch : Except HTTPException (Option Loan)) : Option Loan :=
  match loan_fetch with
  | Except.ok v => v
  | Except.error _ => none

/-- Mirrors the `get_user_balance_and_loan` endpoint body, abstracted over the
outcome of the inner loan-details call (which sits inside a `try`/`except`):
404 when the user is absent, otherwise a `BalanceResponse` built from the
user record and whatever the fetch produced, with fetch failures degraded to
absent loan details. -/
def get_user_balance_and_loan_with (s : BankState) (user_id : Int)
    (loan_fetch : Except HTTPException (Option Loan)) :
    Except HTTPException BalanceResponse × BankState :=
  match find_user_by_id s user_id with
  | none => (Except.error ⟨404, userNotFoundDetail user_id⟩, s)
  | some user =>
    (Except.ok ⟨user.id, user.name, user.balance, loan_details_of loan_fetch⟩, s)

/-- Mirrors the `get_user_balance_and_loan` endpoint of `src/main.py`: the
inner call is the direct (never-raising) `get_internal_loan_info`. -/
def get_user_balance_and_loan (s : BankState) (user_id : Int) :
    Except HTTPException BalanceResponse × BankState :=
  get_user_balance_and_loan_with s user_id
    (Except.ok (get_internal_loan_info s user_id))

/-- Mirrors the `get_all_users` endpoint: `list(users_db.values())`. -/
def get_all_users (s : BankState) : List User × BankState :=
  (s.users_db.map Prod.snd, s)

/-- Mirrors the `get_all_loans` endpoint: `list(loans_db.values())`. -/
def get_all_loans (s : BankState) : List Loan × BankState :=
  (s.loans_db.map Prod.snd, s)

/-- Mirrors the transaction endpoint as reached through the transport layer
(the looped-back internal request of `src/Reference.py`): FastAPI validates
the `Path(..., ge=1)` constraint on `user_id` and rejects a violation with a
422 before the handler body runs; the `Transaction` body model carries no
amount constraint, so everything else reaches `perform_transaction`. -/
def transaction_endpoint (s : BankState) (user_id : Int)
    (transaction : Transaction) : Except HTTPException User × BankState :=
  if user_id < 1 then
    (Except.error ⟨422, "Input should be greater than or equal to 1"⟩, s)
  else
    perform_transaction s user_id transaction

/-- Detail string built by the looped-back `take_loan` of `src/Reference.py`
when the internal transaction request does not return status 200. -/
def failedCreditDetail (e : HTTPException) : String :=
  "Failed to credit loan amount to balance. Status: " ++ toString e.status_code
    ++ "." ++ " Detail: " ++ e.detail

/-- Mirrors the first `take_loan` of `src/Reference.py` (lines 94-123): the
looped-back variant, which credits the balance through an internal HTTP
request to the transaction endpoint and wraps any non-200 outcome of that
request in a fresh 500 error instead of propagating it. -/
def take_loan_looped (s : BankState) (user_id : Int) (loan_amount : Rat) :
    Except HTTPException Loan × BankState :=
  match find_user_by_id s user_id with
  | none => (Except.error ⟨404, userNotFoundDetail user_id⟩, s)
  | some _user =>
    if (find_loan_by_user_id s user_id).isSome then
      (Except.error ⟨400, hasLoanDetail user_id⟩, s)
    else
      match transaction_endpoint s user_id ⟨TransactionType.credit, loan_amount⟩ with
      | (Except.error e, s') => (Except.error ⟨500, failedCreditDetail e⟩, s')
      | (Except.ok _updated_user, s') =>
        let new_loan : Loan := ⟨user_id, loan_amount⟩
        (Except.ok new_loan,
          { s' with loans_db := dictInsert user_id new_loan s'.loans_db })

/-- Mirrors the second `take_loan` of `src/Reference.py` (lines 162-199): the
direct-call variant, which calls `perform_transaction` directly and re-raises
an `HTTPException` from it unchanged. -/
def take_loan_direct (s : BankState) (user_id : Int) (loan_amount : Rat) :
    Except HTTPException Loan × BankState :=
  match find_user_by_id s user_id with
  | none => (Except.error ⟨404, userNotFoundDetail user_id⟩, s)
  | some _user =>
    if (find_loan_by_user_id s user_id).isSome then
      (Except.error ⟨400, hasLoanDetail user_id⟩, s)
    else
      match perform_transaction s user_id ⟨TransactionType.credit, loan_amount⟩ with
      | (Except.error e, s') => (Except.error e, s')
      | (Except.ok _updated_user, s') =>
        let new_loan : Loan := ⟨user_id, loan_amount⟩
        (Except.ok new_loan,
          { s' with loans_db := dictInsert user_id new_loan s'.loans_db })

/-- One request against the canonical (`src/main.py`) endpoints. -/
inductive Op
  | createUser (user_input : User)
  | applyTx (user_id : Int) (transaction : Transaction)
  | issueLoan (user_id : Int) (loan_amount : Rat)
  | balanceView (user_id : Int)
  | listUsers
  | listLoans

/-- The state after serving one request. -/
def step (s : BankState) : Op → BankState
  | Op.createUser u => (create_user s u).2
  | Op.applyTx uid t => (perform_transaction s uid t).2
  | Op.issueLoan uid a => (take_loan s uid a).2
  | Op.balanceView uid => (get_user_balance_and_loan s uid).2
  | Op.listUsers => (get_all_users s).2
  | Op.listLoans => (get_all_loans s).2

/-- The state after serving a sequence of requests. -/
def run (s : BankState) : List Op → BankState
  | [] => s
  | op :: ops => run (step s op) ops

/-- A state is reachable when some request sequence produces it from the
empty store. -/
def Reachable (s : BankState) : Prop :=
  ∃ ops : List Op, run emptyBank ops = s

/-- Every stored user's balance is non-negative. -/
def balancesNonneg (s : BankState) : Prop :=
  ∀ uid u, dictGet uid s.users_db = some u → 0 ≤ u.balance

/-- The loans dict never holds two records for the same user id. -/
def loanKeysNodup (s : BankState) : Prop :=
  (s.loans_db.map Prod.fst).Nodup

/-- Every stored user has a positive id and a non-empty name. -/
def usersWellFormed (s : BankState) : Prop :=
  ∀ uid u, dictGet uid s.users_db = some u → 1 ≤ u.id ∧ u.name ≠ ""

/-- Requests whose caller-supplied user record satisfies the spec's data-model
constraints (positive id, non-empty name); every other request kind is
unconstrained. -/
def opOk : Op → Bool
  | Op.createUser u => decide (1 ≤ u.id ∧ u.name ≠ "")
  | _ => true

/-- Concrete user record used by witnesses: id 1, name Alice, balance 0. -/
def uAlice : User := ⟨1, "Alice", 0⟩

/-- Concrete state with Alice stored (balance 0) and no loans. -/
def sA : BankState := (create_user emptyBank uAlice).2

/-- A request sequence exercising creation, credit and loan issuance. -/
def opsW : List Op :=
  [Op.createUser ⟨1, "Alice", 5⟩, Op.applyTx 1 ⟨TransactionType.credit, 100⟩,
    Op.issueLoan 1 50]

/-- A request sequence that creates Alice and issues her a loan of 50. -/
def opsL : List Op := [Op.createUser uAlice, Op.issueLoan 1 50]

/-- Concrete state with Alice at balance 50 holding a loan of 50. -/
def sL : BankState := run emptyBank opsL

/-- A caller-supplied user record violating the spec's data-model constraints:
id 0 and empty name (`create_user` performs no check on either). -/
def badInput : User := ⟨0, "", 7⟩

/-- The reachable state obtained by creating `badInput`. -/
def badState : BankState := run emptyBank [Op.createUser badInput]

theorem dictGet_dictInsert_self {β : Type} (k : Int) (v : β)
    (l : List (Int × β)) : dictGet k (dictInsert k v l) = some v := by
  induction l with
  | nil => simp [dictGet, dictInsert]
  | cons hd tl ih =>
    obtain ⟨k', v'⟩ := hd
    by_cases h : k = k' <;> simp [dictGet, dictInsert, h, ih]

theorem dictGet_dictInsert_ne {β : Type} {k k' : Int} (hne : k ≠ k') (v : β)
    (l : List (Int × β)) : dictGet k (dictInsert k' v l) = dictGet k l := by
  induction l with
  | nil => simp [dictGet, dictInsert, hne]
  | cons hd tl ih =>
    obtain ⟨k'', v''⟩ := hd
    by_cases h : k' = k''
    · subst h
      simp [dictGet, dictInsert, hne]
    · by_cases h2 : k = k'' <;> simp [dictGet, dictInsert, h, h2, ih]

theorem dictInsert_keys_mem {β : Type} (k x : Int) (v : β)
    (l : List (Int × β)) :
    x ∈ (dictInsert k v l).map Prod.fst ↔ x = k ∨ x ∈ l.map Prod.fst := by
  induction l with
  | nil => simp [dictInsert]
  | cons hd tl ih =>
    obtain ⟨k', v'⟩ := hd
    by_cases h : k = k'
    · simp [dictInsert, h]
    · simp [dictInsert, h, ih]
      tauto

theorem dictInsert_keys_nodup {β : Type} (k : Int) (v : β)
    (l : List (Int × β)) (h : (l.map Prod.fst).Nodup) :
    ((dictInsert k v l).map Prod.fst).Nodup := by
  induction l with
  | nil => simp [dictInsert]
  | cons hd tl ih =>
    obtain ⟨k', v'⟩ := hd
    simp only [List.map_cons, List.nodup_cons] at h
    by_cases hk : k = k'
    · subst hk
      simpa [dictInsert] using h
    · simp only [dictInsert, if_neg hk, List.map_cons, List.nodup_cons]
      refine ⟨fun hmem => ?_, ih h.2⟩
      rcases (dictInsert_keys_mem k k' v tl).mp hmem with h1 | h2
      · exact hk (h1.symm)
      · exact h.1 h2

theorem perform_transaction_user_absent (s : BankState) (uid : Int)
    (t : Transaction) (h : find_user_by_id s uid = none) :
    perform_transaction s uid t = (Except.error ⟨404, userNotFoundDetail uid⟩, s) := by
  simp [perform_transaction, h]

theorem perform_transaction_nonpos (s : BankState) (uid : Int)
    (t : Transaction) (u : User) (hu : find_user_by_id s uid = some u)
    (h : t.amount ≤ 0) :
    perform_transaction s uid t =
      (Except.error ⟨400, "Transaction amount must be positive."⟩, s) := by
  simp [perform_transaction, hu, h]

theorem perform_transaction_credit (s : BankState) (uid : Int) (amt : Rat)
    (u : User) (hu : find_user_by_id s uid = some u) (h : 0 < amt) :
    perform_transaction s uid ⟨TransactionType.credit, amt⟩ =
      (Except.ok { u with balance := u.balance + amt },
        { s with users_db := dictInsert uid { u with balance := u.balance + amt } s.users_db }) := by
  simp [perform_transaction, hu, not_le.mpr h]

theorem perform_transaction_debit_insufficient (s : BankState) (uid : Int)
    (amt : Rat) (u : User) (hu : find_user_by_id s uid = some u) (h : 0 < amt)
    (hb : u.balance < amt) :
    perform_transaction s uid ⟨TransactionType.debit, amt⟩ =
      (Except.error ⟨400, "Insufficient funds for debit."⟩, s) := by
  simp [perform_transaction, hu, not_le.mpr h, hb]

theorem perform_transaction_debit_ok (s : BankState) (uid : Int) (amt : Rat)
    (u : User) (hu : find_user_by_id s uid = some u) (h : 0 < amt)
    (hb : amt ≤ u.balance) :
    perform_transaction s uid ⟨TransactionType.debit, amt⟩ =
      (Except.ok { u with balance := u.balance - amt },
        { s with users_db := dictInsert uid { u with balance := u.balance - amt } s.users_db }) := by
  simp [perform_transaction, hu, not_le.mpr h, not_lt.mpr hb]

theorem perform_transaction_error_state (s : BankState) (uid : Int)
    (t : Transaction) (e : HTTPException) (s' : BankState)
    (h : perform_transaction s uid t = (Except.error e, s')) : s' = s := by
  obtain ⟨ty, amt⟩ := t
  rcases hfind : find_user_by_id s uid with _ | u
  · rw [perform_transaction_user_absent s uid _ hfind] at h
    injection h with h1 h2
    exact h2.symm
  · by_cases hamt : amt ≤ 0
    · rw [perform_transaction_nonpos s uid _ u hfind hamt] at h
      injection h with h1 h2
      exact h2.symm
    · cases ty
      · by_cases hb : u.balance < amt
        · rw [perform_transaction_debit_insufficient s uid amt u hfind
            (not_le.mp hamt) hb] at h
          injection h with h1 h2
          exact h2.symm
        · rw [perform_transaction_debit_ok s uid amt u hfind
            (not_le.mp hamt) (not_lt.mp hb)] at h
          injection h with h1 h2
          exact Except.noConfusion h1
      · rw [perform_transaction_credit s uid amt u hfind (not_le.mp hamt)] at h
        injection h with h1 h2
        exact Except.noConfusion h1

theorem perform_transaction_loans (s : BankState) (uid : Int)
    (t : Transaction) : (perform_transaction s uid t).2.loans_db = s.loans_db := by
  obtain ⟨ty, amt⟩ := t
  rcases hfind : find_user_by_id s uid with _ | u
  · rw [perform_transaction_user_absent s uid _ hfind]
  · by_cases hamt : amt ≤ 0
    · rw [perform_transaction_nonpos s uid _ u hfind hamt]
    · cases ty
      · by_cases hb : u.balance < amt
        · rw [perform_transaction_debit_insufficient s uid amt u hfind
            (not_le.mp hamt) hb]
        · rw [perform_transaction_debit_ok s uid amt u hfind
            (not_le.mp hamt) (not_lt.mp hb)]
      · rw [perform_transaction_credit s uid amt u hfind (not_le.mp hamt)]

theorem perform_transaction_users_frame (s : BankState) (uid k : Int)
    (t : Transaction) (hk : k ≠ uid) :
    find_user_by_id (perform_transaction s uid t).2 k = find_user_by_id s k := by
  obtain ⟨ty, amt⟩ := t
  rcases hfind : find_user_by_id s uid with _ | u
  · rw [perform_transaction_user_absent s uid _ hfind]
  · by_cases hamt : amt ≤ 0
    · rw [perform_transaction_nonpos s uid _ u hfind hamt]
    · cases ty
      · by_cases hb : u.balance < amt
        · rw [perform_transaction_debit_insufficient s uid amt u hfind
            (not_le.mp hamt) hb]
        · rw [perform_transaction_debit_ok s uid amt u hfind
            (not_le.mp hamt) (not_lt.mp hb)]
          exact dictGet_dictInsert_ne hk _ s.users_db
      · rw [perform_transaction_credit s uid amt u hfind (not_le.mp hamt)]
        exact dictGet_dictInsert_ne hk _ s.users_db

theorem take_loan_user_absent (s : BankState) (uid : Int) (amt : Rat)
    (h : find_user_by_id s uid = none) :
    take_loan s uid amt = (Except.error ⟨404, userNotFoundDetail uid⟩, s) := by
  simp [take_loan, h]

theorem take_loan_has_loan (s : BankState) (uid : Int) (amt : Rat) (u : User)
    (l : Loan) (hu : find_user_by_id s uid = some u)
    (hl : find_loan_by_user_id s uid = some l) :
    take_loan s uid amt = (Except.error ⟨400, hasLoanDetail uid⟩, s) := by
  simp [take_loan, hu, hl]

theorem take_loan_credit_error (s : BankState) (uid : Int) (amt : Rat)
    (u : User) (e : HTTPException) (s2 : BankState)
    (hu : find_user_by_id s uid = some u)
    (hl : find_loan_by_user_id s uid = none)
    (hpt : perform_transaction s uid ⟨TransactionType.credit, amt⟩ = (Except.error e, s2)) :
    take_loan s uid amt = (Except.error e, s2) := by
  simp [take_loan, hu, hl, hpt]

theorem take_loan_success (s : BankState) (uid : Int) (amt : Rat) (u : User)
    (hu : find_user_by_id s uid = some u)
    (hl : find_loan_by_user_id s uid = none) (hamt : 0 < amt) :
    take_loan s uid amt =
      (Except.ok ⟨uid, amt⟩,
        ⟨dictInsert uid { u with balance := u.balance + amt } s.users_db,
          dictInsert uid ⟨uid, amt⟩ s.loans_db⟩) := by
  simp [take_loan, hu, hl, perform_transaction_credit s uid amt u hu hamt]

theorem take_loan_error_state (s : BankState) (uid : Int) (amt : Rat)
    (e : HTTPException) (s' : BankState)
    (h : take_loan s uid amt = (Except.error e, s')) : s' = s := by
  rcases hu : find_user_by_id s uid with _ | u
  · rw [take_loan_user_absent s uid amt hu] at h
    injection h with h1 h2
    exact h2.symm
  · rcases hl : find_loan_by_user_id s uid with _ | l
    · rcases hpt : perform_transaction s uid ⟨TransactionType.credit, amt⟩ with ⟨res, s2⟩
      cases res with
      | error e2 =>
        rw [take_loan_credit_error s uid amt u e2 s2 hu hl hpt] at h
        injection h with h1 h2
        rw [← h2]
        exact perform_transaction_error_state s uid _ e2 s2 hpt
      | ok u2 =>
        simp [take_loan, hu, hl, hpt] at h
    · rw [take_loan_has_loan s uid amt u l hu hl] at h
      injection h with h1 h2
      exact h2.symm

theorem take_loan_users_frame (s : BankState) (uid k : Int) (amt : Rat)
    (hk : k ≠ uid) :
    find_user_by_id (take_loan s uid amt).2 k = find_user_by_id s k := by
  rcases hu : find_user_by_id s uid with _ | u
  · rw [take_loan_user_absent s uid amt hu]
  · rcases hl : find_loan_by_user_id s uid with _ | l
    · rcases hpt : perform_transaction s uid ⟨TransactionType.credit, amt⟩ with ⟨res, s2⟩
      cases res with
      | error e2 =>
        rw [take_loan_credit_error s uid amt u e2 s2 hu hl hpt]
        rw [perform_transaction_error_state s uid _ e2 s2 hpt]
      | ok u2 =>
        have hframe := perform_transaction_users_frame s uid k
          ⟨TransactionType.credit, amt⟩ hk
        rw [hpt] at hframe
        simp only [take_loan, hu, hl, hpt, Option.isSome_none, Bool.false_eq_true,
          if_false]
        exact hframe
    · rw [take_loan_has_loan s uid amt u l hu hl]

theorem take_loan_loans_frame (s : BankState) (uid k : Int) (amt : Rat)
    (hk : k ≠ uid) :
    find_loan_by_user_id (take_loan s uid amt).2 k = find_loan_by_user_id s k := by
  rcases hu : find_user_by_id s uid with _ | u
  · rw [take_loan_user_absent s uid amt hu]
  · rcases hl : find_loan_by_user_id s uid with _ | l
    · rcases hpt : perform_transaction s uid ⟨TransactionType.credit, amt⟩ with ⟨res, s2⟩
      cases res with
      | error e2 =>
        rw [take_loan_credit_error s uid amt u e2 s2 hu hl hpt]
        rw [perform_transaction_error_state s uid _ e2 s2 hpt]
      | ok u2 =>
        have hloans := perform_transaction_loans s uid ⟨TransactionType.credit, amt⟩
        rw [hpt] at hloans
        simp only [take_loan, hu, hl, hpt, Option.isSome_none, Bool.false_eq_true,
          if_false]
        show dictGet k (dictInsert uid ⟨uid, amt⟩ s2.loans_db) = find_loan_by_user_id s k
        rw [dictGet_dictInsert_ne hk _ s2.loans_db, hloans]
        rfl
    · rw [take_loan_has_loan s uid amt u l hu hl]

theorem get_user_balance_and_loan_state (s : BankState) (uid : Int) :
    (get_user_balance_and_loan s uid).2 = s := by
  rcases hu : find_user_by_id s uid with _ | u <;>
    simp [get_user_balance_and_loan, get_user_balance_and_loan_with, hu]

theorem create_user_exists (s : BankState) (u0 : User)
    (h : (dictGet u0.id s.users_db).isSome = true) :
    create_user s u0 = (Except.error ⟨400, userExistsDetail u0.id⟩, s) := by
  simp [create_user, h]

theorem create_user_new (s : BankState) (u0 : User)
    (h : dictGet u0.id s.users_db = none) :
    create_user s u0 =
      (Except.ok ⟨u0.id, u0.name, 0⟩,
        { s with users_db := dictInsert u0.id ⟨u0.id, u0.name, 0⟩ s.users_db }) := by
  simp [create_user, h]

theorem create_user_loans (s : BankState) (u0 : User) :
    (create_user s u0).2.loans_db = s.loans_db := by
  rcases hp : dictGet u0.id s.users_db with _ | u1
  · rw [create_user_new s u0 hp]
  · rw [create_user_exists s u0 (by simp [hp])]

theorem balancesNonneg_insert (s : BankState) (uid : Int) (u' : User)
    (h : balancesNonneg s) (hb : 0 ≤ u'.balance) :
    ∀ k v, dictGet k (dictInsert uid u' s.users_db) = some v → 0 ≤ v.balance := by
  intro k v hv
  by_cases hk : k = uid
  · subst hk
    rw [dictGet_dictInsert_self] at hv
    injection hv with hv
    exact hv ▸ hb
  · rw [dictGet_dictInsert_ne hk] at hv
    exact h k v hv

theorem balancesNonneg_create_user (s : BankState) (u0 : User)
    (h : balancesNonneg s) : balancesNonneg (create_user s u0).2 := by
  rcases hp : dictGet u0.id s.users_db with _ | u1
  · rw [create_user_new s u0 hp]
    exact fun k v hv => balancesNonneg_insert s u0.id _ h (le_refl 0) k v hv
  · rw [create_user_exists s u0 (by simp [hp])]
    exact h

theorem balancesNonneg_perform_transaction (s : BankState) (uid : Int)
    (t : Transaction) (h : balancesNonneg s) :
    balancesNonneg (perform_transaction s uid t).2 := by
  obtain ⟨ty, amt⟩ := t
  rcases hu : find_user_by_id s uid with _ | u
  · rw [perform_transaction_user_absent s uid _ hu]
    exact h
  · by_cases hamt : amt ≤ 0
    · rw [perform_transaction_nonpos s uid _ u hu hamt]
      exact h
    · cases ty
      · by_cases hb : u.balance < amt
        · rw [perform_transaction_debit_insufficient s uid amt u hu
            (not_le.mp hamt) hb]
          exact h
        · rw [perform_transaction_debit_ok s uid amt u hu
            (not_le.mp hamt) (not_lt.mp hb)]
          exact fun k v hv =>
            balancesNonneg_insert s uid _ h (sub_nonneg.mpr (not_lt.mp hb)) k v hv
      · rw [perform_transaction_credit s uid amt u hu (not_le.mp hamt)]
        exact fun k v hv =>
          balancesNonneg_insert s uid _ h
            (add_nonneg (h uid u hu) (not_le.mp hamt).le) k v hv

theorem balancesNonneg_take_loan (s : BankState) (uid : Int) (amt : Rat)
    (h : balancesNonneg s) : balancesNonneg (take_loan s uid amt).2 := by
  rcases hu : find_user_by_id s uid with _ | u
  · rw [take_loan_user_absent s uid amt hu]
    exact h
  · rcases hl : find_loan_by_user_id s uid with _ | l
    · rcases hpt : perform_transaction s uid ⟨TransactionType.credit, amt⟩ with ⟨res, s2⟩
      have h2 : balancesNonneg s2 := by
        have := balancesNonneg_perform_transaction s uid ⟨TransactionType.credit, amt⟩ h
        rwa [hpt] at this
      cases res with
      | error e2 =>
        rw [take_loan_credit_error s uid amt u e2 s2 hu hl hpt]
        exact h2
      | ok u2 =>
        simp only [take_loan, hu, hl, hpt, Option.isSome_none, Bool.false_eq_true,
          if_false]
        exact fun k v hv => h2 k v hv
    · rw [take_loan_has_loan s uid amt u l hu hl]
      exact h

theorem balancesNonneg_step (s : BankState) (op : Op) (h : balancesNonneg s) :
    balancesNonneg (step s op) := by
  cases op with
  | createUser u0 => exact balancesNonneg_create_user s u0 h
  | applyTx uid t => exact balancesNonneg_perform_transaction s uid t h
  | issueLoan uid amt => exact balancesNonneg_take_loan s uid amt h
  | balanceView uid =>
    show balancesNonneg (get_user_balance_and_loan s uid).2
    rw [get_user_balance_and_loan_state]
    exact h
  | listUsers => exact h
  | listLoans => exact h

theorem balancesNonneg_run (ops : List Op) :
    ∀ s : BankState, balancesNonneg s → balancesNonneg (run s ops) := by
  induction ops with
  | nil => exact fun s h => h
  | cons op ops ih => exact fun s h => ih (step s op) (balancesNonneg_step s op h)

theorem balancesNonneg_emptyBank : balancesNonneg emptyBank :=
  fun _uid _u h => Option.noConfusion h

theorem loan_preserved_step (s : BankState) (op : Op) (uid : Int) (l : Loan)
    (h : find_loan_by_user_id s uid = some l) :
    find_loan_by_user_id (step s op) uid = some l := by
  cases op with
  | createUser u0 =>
    show dictGet uid (create_user s u0).2.loans_db = some l
    rw [create_user_loans]
    exact h
  | applyTx uid2 t =>
    show dictGet uid (perform_transaction s uid2 t).2.loans_db = some l
    rw [perform_transaction_loans]
    exact h
  | issueLoan uid2 amt =>
    by_cases hk : uid = uid2
    · subst hk
      rcases hu : find_user_by_id s uid with _ | u
      · show find_loan_by_user_id (take_loan s uid amt).2 uid = some l
        rw [take_loan_user_absent s uid amt hu]
        exact h
      · show find_loan_by_user_id (take_loan s uid amt).2 uid = some l
        rw [take_loan_has_loan s uid amt u l hu h]
        exact h
    · show find_loan_by_user_id (take_loan s uid2 amt).2 uid = some l
      rw [take_loan_loans_frame s uid2 uid amt hk]
      exact h
  | balanceView uid2 =>
    show find_loan_by_user_id (get_user_balance_and_loan s uid2).2 uid = some l
    rw [get_user_balance_and_loan_state]
    exact h
  | listUsers => exact h
  | listLoans => exact h

theorem loan_preserved_run (ops : List Op) :
    ∀ (s : BankState) (uid : Int) (l : Loan),
      find_loan_by_user_id s uid = some l →
      find_loan_by_user_id (run s ops) uid = some l := by
  induction ops with
  | nil => exact fun _s _uid _l h => h
  | cons op ops ih =>
    exact fun s uid l h => ih (step s op) uid l (loan_preserved_step s op uid l h)

theorem loanKeysNodup_step (s : BankState) (op : Op) (h : loanKeysNodup s) :
    loanKeysNodup (step s op) := by
  cases op with
  | createUser u0 =>
    show loanKeysNodup (create_user s u0).2
    unfold loanKeysNodup
    rw [create_user_loans]
    exact h
  | applyTx uid t =>
    show loanKeysNodup (perform_transaction s uid t).2
    unfold loanKeysNodup
    rw [perform_transaction_loans]
    exact h
  | issueLoan uid amt =>
    show loanKeysNodup (take_loan s uid amt).2
    rcases hu : find_user_by_id s uid with _ | u
    · rw [take_loan_user_absent s uid amt hu]
      exact h
    · rcases hl : find_loan_by_user_id s uid with _ | l
      · rcases hpt : perform_transaction s uid ⟨TransactionType.credit, amt⟩ with ⟨res, s2⟩
        have h2 : s2.loans_db = s.loans_db := by
          have := perform_transaction_loans s uid ⟨TransactionType.credit, amt⟩
          rwa [hpt] at this
        cases res with
        | error e2 =>
          rw [take_loan_credit_error s uid amt u e2 s2 hu hl hpt]
          unfold loanKeysNodup
          rw [h2]
          exact h
        | ok u2 =>
          simp only [take_loan, hu, hl, hpt, Option.isSome_none, Bool.false_eq_true,
            if_false]
          show ((dictInsert uid (⟨uid, amt⟩ : Loan) s2.loans_db).map Prod.fst).Nodup
          rw [h2]
          exact dictInsert_keys_nodup uid _ s.loans_db h
      · rw [take_loan_has_loan s uid amt u l hu hl]
        exact h
  | balanceView uid =>
    show loanKeysNodup (get_user_balance_and_loan s uid).2
    rw [get_user_balance_and_loan_state]
    exact h
  | listUsers => exact h
  | listLoans => exact h

theorem loanKeysNodup_run (ops : List Op) :
    ∀ s : BankState, loanKeysNodup s → loanKeysNodup (run s ops) := by
  induction ops with
  | nil => exact fun _s h => h
  | cons op ops ih => exact fun s h => ih (step s op) (loanKeysNodup_step s op h)

theorem usersWellFormed_insert (s : BankState) (uid : Int) (u' : User)
    (h : usersWellFormed s) (hu' : 1 ≤ u'.id ∧ u'.name ≠ "") :
    ∀ k v, dictGet k (dictInsert uid u' s.users_db) = some v →
      1 ≤ v.id ∧ v.name ≠ "" := by
  intro k v hv
  by_cases hk : k = uid
  · subst hk
    rw [dictGet_dictInsert_self] at hv
    injection hv with hv
    exact hv ▸ hu'
  · rw [dictGet_dictInsert_ne hk] at hv
    exact h k v hv

theorem usersWellFormed_perform_transaction (s : BankState) (uid : Int)
    (t : Transaction) (h : usersWellFormed s) :
    usersWellFormed (perform_transaction s uid t).2 := by
  obtain ⟨ty, amt⟩ := t
  rcases hu : find_user_by_id s uid with _ | u
  · rw [perform_transaction_user_absent s uid _ hu]
    exact h
  · by_cases hamt : amt ≤ 0
    · rw [perform_transaction_nonpos s uid _ u hu hamt]
      exact h
    · cases ty
      · by_cases hb : u.balance < amt
        · rw [perform_transaction_debit_insufficient s uid amt u hu
            (not_le.mp hamt) hb]
          exact h
        · rw [perform_transaction_debit_ok s uid amt u hu
            (not_le.mp hamt) (not_lt.mp hb)]
          exact fun k v hv =>
            usersWellFormed_insert s uid { u with balance := u.balance - amt }
              h (h uid u hu) k v hv
      · rw [perform_transaction_credit s uid amt u hu (not_le.mp hamt)]
        exact fun k v hv =>
          usersWellFormed_insert s uid { u with balance := u.balance + amt }
            h (h uid u hu) k v hv

theorem usersWellFormed_take_loan (s : BankState) (uid : Int) (amt : Rat)
    (h : usersWellFormed s) : usersWellFormed (take_loan s uid amt).2 := by
  rcases hu : find_user_by_id s uid with _ | u
  · rw [take_loan_user_absent s uid amt hu]
    exact h
  · rcases hl : find_loan_by_user_id s uid with _ | l
    · rcases hpt : perform_transaction s uid ⟨TransactionType.credit, amt⟩ with ⟨res, s2⟩
      have h2 : usersWellFormed s2 := by
        have := usersWellFormed_perform_transaction s uid ⟨TransactionType.credit, amt⟩ h
        rwa [hpt] at this
      cases res with
      | error e2 =>
        rw [take_loan_credit_error s uid amt u e2 s2 hu hl hpt]
        exact h2
      | ok u2 =>
        simp only [take_loan, hu, hl, hpt, Option.isSome_none, Bool.false_eq_true,
          if_false]
        exact fun k v hv => h2 k v hv
    · rw [take_loan_has_loan s uid amt u l hu hl]
      exact h

theorem usersWellFormed_step (s : BankState) (op : Op) (hop : opOk op = true)
    (h : usersWellFormed s) : usersWellFormed (step s op) := by
  cases op with
  | createUser u0 =>
    have hu0 : 1 ≤ u0.id ∧ u0.name ≠ "" := of_decide_eq_true hop
    rcases hp : dictGet u0.id s.users_db with _ | u1
    · show usersWellFormed (create_user s u0).2
      rw [create_user_new s u0 hp]
      exact fun k v hv =>
        usersWellFormed_insert s u0.id ⟨u0.id, u0.name, 0⟩ h hu0 k v hv
    · show usersWellFormed (create_user s u0).2
      rw [create_user_exists s u0 (by simp [hp])]
      exact h
  | applyTx uid t => exact usersWellFormed_perform_transaction s uid t h
  | issueLoan uid amt => exact usersWellFormed_take_loan s uid amt h
  | balanceView uid =>
    show usersWellFormed (get_user_balance_and_loan s uid).2
    rw [get_user_balance_and_loan_state]
    exact h
  | listUsers => exact h
  | listLoans => exact h

theorem usersWellFormed_run (ops : List Op) :
    ∀ s : BankState, ops.all opOk = true → usersWellFormed s →
      usersWellFormed (run s ops) := by
  induction ops with
  | nil => exact fun _s _hops h => h
  | cons op ops ih =>
    intro s hops h
    rw [List.all_cons, Bool.and_eq_true] at hops
    exact ih (step s op) hops.2 (usersWellFormed_step s op hops.1 h)

theorem usersWellFormed_emptyBank : usersWellFormed emptyBank :=
  fun _uid _u h => Option.noConfusion h

theorem loanKeysNodup_emptyBank : loanKeysNodup emptyBank := by
  simp [loanKeysNodup, emptyBank]

theorem create_user_users_frame (s : BankState) (u0 : User) (k : Int)
    (hk : k ≠ u0.id) :
    find_user_by_id (create_user s u0).2 k = find_user_by_id s k := by
  rcases hp : dictGet u0.id s.users_db with _ | u1
  · rw [create_user_new s u0 hp]
    exact dictGet_dictInsert_ne hk _ s.users_db
  · rw [create_user_exists s u0 (by simp [hp])]

theorem take_loan_direct_eq (s : BankState) (uid : Int) (amt : Rat) :
    take_loan_direct s uid amt = take_loan s uid amt := by
  unfold take_loan_direct take_loan
  rcases hu : find_user_by_id s uid with _ | u
  · rfl
  · rcases hl : find_loan_by_user_id s uid with _ | l
    · rcases hpt : perform_transaction s uid ⟨TransactionType.credit, amt⟩ with ⟨res, s2⟩
      cases res <;> simp [hl, hpt]
    · simp [hl]

/-- Claim C3: `apply_transaction(user_id, type, amount)` fails with NotFound
(404) when the user is absent, with InvalidAmount (400, amount must be
positive) when `amount <= 0` for both debit and credit, with InsufficientFunds
(400) for a debit when `balance < amount`; otherwise a debit decreases the
balance by exactly the amount, a credit increases it by exactly the amount
unconditionally, and every failure outcome leaves the state unchanged. -/
theorem claim_C3 (s : BankState) (uid : Int) (t : Transaction) :
    (find_user_by_id s uid = none →
      perform_transaction s uid t =
        (Except.error ⟨404, userNotFoundDetail uid⟩, s)) ∧
    (∀ u, find_user_by_id s uid = some u → t.amount ≤ 0 →
      perform_transaction s uid t =
        (Except.error ⟨400, "Transaction amount must be positive."⟩, s)) ∧
    (∀ u, find_user_by_id s uid = some u → 0 < t.amount →
      t.type = TransactionType.debit → u.balance < t.amount →
      perform_transaction s uid t =
        (Except.error ⟨400, "Insufficient funds for debit."⟩, s)) ∧
    (∀ u, find_user_by_id s uid = some u → 0 < t.amount →
      t.type = TransactionType.debit → t.amount ≤ u.balance →
      perform_transaction s uid t =
        (Except.ok { u with balance := u.balance - t.amount },
          { s with users_db :=
              dictInsert uid { u with balance := u.balance - t.amount } s.users_db }) ∧
      find_user_by_id (perform_transaction s uid t).2 uid =
        some { u with balance := u.balance - t.amount }) ∧
    (∀ u, find_user_by_id s uid = some u → 0 < t.amount →
      t.type = TransactionType.credit →
      perform_transaction s uid t =
        (Except.ok { u with balance := u.balance + t.amount },
          { s with users_db :=
              dictInsert uid { u with balance := u.balance + t.amount } s.users_db }) ∧
      find_user_by_id (perform_transaction s uid t).2 uid =
        some { u with balance := u.balance + t.amount }) ∧
    (∀ e s', perform_transaction s uid t = (Except.error e, s') → s' = s) := by
  obtain ⟨ty, amt⟩ := t
  refine ⟨fun h => perform_transaction_user_absent s uid _ h,
    fun u hu h => perform_transaction_nonpos s uid _ u hu h,
    fun u hu hpos hty hb => ?_, fun u hu hpos hty hb => ?_,
    fun u hu hpos hty => ?_,
    fun e s' h => perform_transaction_error_state s uid _ e s' h⟩
  · cases hty
    exact perform_transaction_debit_insufficient s uid amt u hu hpos hb
  · cases hty
    refine ⟨perform_transaction_debit_ok s uid amt u hu hpos hb, ?_⟩
    rw [perform_transaction_debit_ok s uid amt u hu hpos hb]
    exact dictGet_dictInsert_self uid _ s.users_db
  · cases hty
    refine ⟨perform_transaction_credit s uid amt u hu hpos, ?_⟩
    rw [perform_transaction_credit s uid amt u hu hpos]
    exact dictGet_dictInsert_self uid _ s.users_db

/-- Claim C3 witness: in the state where Alice holds balance 0, a credit of
100 succeeds and adds exactly 100, while a debit of 30 fails with
InsufficientFunds and leaves the state unchanged. -/
theorem claim_C3_witness :
    perform_transaction sA 1 ⟨TransactionType.credit, 100⟩ =
      (Except.ok { uAlice with balance := uAlice.balance + 100 },
        { sA with users_db :=
            dictInsert 1 { uAlice with balance := uAlice.balance + 100 } sA.users_db }) ∧
    perform_transaction sA 1 ⟨TransactionType.debit, 30⟩ =
      (Except.error ⟨400, "Insufficient funds for debit."⟩, sA) :=
  ⟨((claim_C3 sA 1 ⟨TransactionType.credit, 100⟩).2.2.2.2.1 uAlice
      (by decide) (by decide) rfl).1,
    (claim_C3 sA 1 ⟨TransactionType.debit, 30⟩).2.2.1 uAlice
      (by decide) (by decide) rfl (by decide)⟩

/-- Claim C1: `issue_loan` fails with NotFound (404) when the user is absent,
with AlreadyHasLoan (400) when a loan already exists, and with InvalidAmount
(the propagated 400 of the credit step) when `amount <= 0`; whenever the
internal credit step fails, `issue_loan` fails with that same error; on every
failure the state is unchanged (no loan record, no balance change), and on
every success both the balance credit and the loan record happen. -/
theorem claim_C1 (s : BankState) (uid : Int) (amt : Rat) :
    (find_user_by_id s uid = none →
      take_loan s uid amt = (Except.error ⟨404, userNotFoundDetail uid⟩, s)) ∧
    (∀ u l, find_user_by_id s uid = some u →
      find_loan_by_user_id s uid = some l →
      take_loan s uid amt = (Except.error ⟨400, hasLoanDetail uid⟩, s)) ∧
    (∀ u, find_user_by_id s uid = some u →
      find_loan_by_user_id s uid = none → amt ≤ 0 →
      take_loan s uid amt =
        (Except.error ⟨400, "Transaction amount must be positive."⟩, s)) ∧
    (∀ u e s2, find_user_by_id s uid = some u →
      find_loan_by_user_id s uid = none →
      perform_transaction s uid ⟨TransactionType.credit, amt⟩ = (Except.error e, s2) →
      take_loan s uid amt = (Except.error e, s)) ∧
    (∀ e s', take_loan s uid amt = (Except.error e, s') → s' = s) ∧
    (∀ l s', take_loan s uid amt = (Except.ok l, s') →
      ∃ u, find_user_by_id s uid = some u ∧
        find_loan_by_user_id s uid = none ∧ 0 < amt ∧ l = ⟨uid, amt⟩ ∧
        s' = ⟨dictInsert uid { u with balance := u.balance + amt } s.users_db,
              dictInsert uid ⟨uid, amt⟩ s.loans_db⟩) := by
  refine ⟨fun h => take_loan_user_absent s uid amt h,
    fun u l hu hl => take_loan_has_loan s uid amt u l hu hl,
    fun u hu hl hamt => take_loan_credit_error s uid amt u _ s hu hl
      (perform_transaction_nonpos s uid _ u hu hamt),
    fun u e s2 hu hl hpt => ?_,
    fun e s' h => take_loan_error_state s uid amt e s' h,
    fun l s' h => ?_⟩
  · have h2 : s2 = s := perform_transaction_error_state s uid _ e s2 hpt
    rw [take_loan_credit_error s uid amt u e s2 hu hl hpt, h2]
  · rcases hu : find_user_by_id s uid with _ | u
    · rw [take_loan_user_absent s uid amt hu] at h
      injection h with h1 h2
      exact Except.noConfusion h1
    · rcases hl : find_loan_by_user_id s uid with _ | l0
      · by_cases hamt : amt ≤ 0
        · rw [take_loan_credit_error s uid amt u _ s hu hl
            (perform_transaction_nonpos s uid _ u hu hamt)] at h
          injection h with h1 h2
          exact Except.noConfusion h1
        · rw [take_loan_success s uid amt u hu hl (not_le.mp hamt)] at h
          injection h with h1 h2
          injection h1 with h1
          exact ⟨u, rfl, rfl, not_le.mp hamt, h1.symm, h2.symm⟩
      · rw [take_loan_has_loan s uid amt u l0 hu hl] at h
        injection h with h1 h2
        exact Except.noConfusion h1

/-- Claim C1 witness: issuing a loan to the absent user 7 in the empty store
fails with the 404 and leaves the store empty. -/
theorem claim_C1_witness :
    take_loan emptyBank 7 50 =
      (Except.error ⟨404, userNotFoundDetail 7⟩, emptyBank) :=
  (claim_C1 emptyBank 7 50).1 rfl

/-- Claim C4: issuing a loan of a positive amount to a user with no existing
loan credits the balance by exactly that amount, records a loan with the
user's id and that principal, returns it, and makes every subsequent
`issue_loan` for the same user fail with AlreadyHasLoan without changing the
state. -/
theorem claim_C4 (s : BankState) (uid : Int) (amt : Rat) (u : User)
    (hu : find_user_by_id s uid = some u)
    (hl : find_loan_by_user_id s uid = none) (hamt : 0 < amt) :
    take_loan s uid amt =
      (Except.ok ⟨uid, amt⟩,
        ⟨dictInsert uid { u with balance := u.balance + amt } s.users_db,
          dictInsert uid ⟨uid, amt⟩ s.loans_db⟩) ∧
    find_user_by_id (take_loan s uid amt).2 uid =
      some { u with balance := u.balance + amt } ∧
    find_loan_by_user_id (take_loan s uid amt).2 uid = some ⟨uid, amt⟩ ∧
    (∀ amt2 : Rat,
      take_loan (take_loan s uid amt).2 uid amt2 =
        (Except.error ⟨400, hasLoanDetail uid⟩, (take_loan s uid amt).2)) := by
  have hs := take_loan_success s uid amt u hu hl hamt
  have hu2 : find_user_by_id (take_loan s uid amt).2 uid =
      some { u with balance := u.balance + amt } := by
    rw [hs]
    exact dictGet_dictInsert_self uid _ s.users_db
  have hl2 : find_loan_by_user_id (take_loan s uid amt).2 uid = some ⟨uid, amt⟩ := by
    rw [hs]
    exact dictGet_dictInsert_self uid _ s.loans_db
  exact ⟨hs, hu2, hl2,
    fun amt2 => take_loan_has_loan _ uid amt2 _ _ hu2 hl2⟩

/-- Claim C4 witness: Alice (balance 0, no loan) takes a loan of 50; the loan
is recorded and a second loan request fails with AlreadyHasLoan. -/
theorem claim_C4_witness :
    take_loan sA 1 50 =
      (Except.ok ⟨1, 50⟩,
        ⟨dictInsert 1 { uAlice with balance := uAlice.balance + 50 } sA.users_db,
          dictInsert 1 ⟨1, 50⟩ sA.loans_db⟩) ∧
    take_loan (take_loan sA 1 50).2 1 10 =
      (Except.error ⟨400, hasLoanDetail 1⟩, (take_loan sA 1 50).2) :=
  ⟨(claim_C4 sA 1 50 uAlice (by decide) rfl (by decide)).1,
    (claim_C4 sA 1 50 uAlice (by decide) rfl (by decide)).2.2.2 10⟩

/-- Claim C5: `create_user` fails with AlreadyExists (400) when the id is
already stored, leaving the previously stored record untouched; otherwise it
stores a new user whose balance is exactly 0 regardless of the caller-supplied
balance and returns that stored user. -/
theorem claim_C5 (s : BankState) (u0 : User) :
    (∀ u1, dictGet u0.id s.users_db = some u1 →
      create_user s u0 = (Except.error ⟨400, userExistsDetail u0.id⟩, s) ∧
      find_user_by_id (create_user s u0).2 u0.id = some u1) ∧
    (dictGet u0.id s.users_db = none →
      create_user s u0 =
        (Except.ok ⟨u0.id, u0.name, 0⟩,
          { s with users_db := dictInsert u0.id ⟨u0.id, u0.name, 0⟩ s.users_db }) ∧
      find_user_by_id (create_user s u0).2 u0.id = some ⟨u0.id, u0.name, 0⟩) := by
  constructor
  · intro u1 h1
    have he := create_user_exists s u0 (by simp [h1])
    refine ⟨he, ?_⟩
    rw [he]
    exact h1
  · intro h0
    have hn := create_user_new s u0 h0
    refine ⟨hn, ?_⟩
    rw [hn]
    exact dictGet_dictInsert_self u0.id _ s.users_db

/-- Claim C5 witness: creating user 1 with caller-supplied balance 99 stores
balance 0; creating id 1 again fails with AlreadyExists and the stored record
is still Alice with balance 0. -/
theorem claim_C5_witness :
    create_user emptyBank ⟨1, "Alice", 99⟩ =
      (Except.ok ⟨1, "Alice", 0⟩,
        { emptyBank with users_db := dictInsert 1 ⟨1, "Alice", 0⟩ emptyBank.users_db }) ∧
    create_user (create_user emptyBank ⟨1, "Alice", 99⟩).2 ⟨1, "Bob", 5⟩ =
      (Except.error ⟨400, userExistsDetail 1⟩, (create_user emptyBank ⟨1, "Alice", 99⟩).2) ∧
    find_user_by_id
        (create_user (create_user emptyBank ⟨1, "Alice", 99⟩).2 ⟨1, "Bob", 5⟩).2 1 =
      some ⟨1, "Alice", 0⟩ :=
  ⟨((claim_C5 emptyBank ⟨1, "Alice", 99⟩).2 rfl).1,
    ((claim_C5 (create_user emptyBank ⟨1, "Alice", 99⟩).2 ⟨1, "Bob", 5⟩).1
      ⟨1, "Alice", 0⟩ (by decide)).1,
    ((claim_C5 (create_user emptyBank ⟨1, "Alice", 99⟩).2 ⟨1, "Bob", 5⟩).1
      ⟨1, "Alice", 0⟩ (by decide)).2⟩

/-- Claim C2: in every state reachable from the empty store by any sequence
of requests, every stored user's balance is non-negative. -/
theorem claim_C2 (s : BankState) (hs : Reachable s) : balancesNonneg s := by
  obtain ⟨ops, rfl⟩ := hs
  exact balancesNonneg_run ops emptyBank balancesNonneg_emptyBank

/-- Claim C2 witness: the state reached by creating Alice, crediting 100 and
issuing a loan of 50 is reachable and all its balances are non-negative. -/
theorem claim_C2_witness :
    Reachable (run emptyBank opsW) ∧ balancesNonneg (run emptyBank opsW) :=
  ⟨⟨opsW, rfl⟩, claim_C2 (run emptyBank opsW) ⟨opsW, rfl⟩⟩

/-- Claim C6: the balance view fails with NotFound (404) exactly when the
user is absent; otherwise it returns the user's id, name and current balance
together with the loan lookup's result, an absent loan yields a successful
response with no loan details, and a failing inner loan fetch likewise
degrades to absent loan details rather than failing the request. -/
theorem claim_C6 (s : BankState) (uid : Int) :
    (find_user_by_id s uid = none →
      get_user_balance_and_loan s uid =
        (Except.error ⟨404, userNotFoundDetail uid⟩, s)) ∧
    (∀ u, find_user_by_id s uid = some u →
      get_user_balance_and_loan s uid =
        (Except.ok ⟨u.id, u.name, u.balance, find_loan_by_user_id s uid⟩, s)) ∧
    (∀ u loan_fetch, find_user_by_id s uid = some u →
      get_user_balance_and_loan_with s uid loan_fetch =
        (Except.ok ⟨u.id, u.name, u.balance, loan_details_of loan_fetch⟩, s)) ∧
    (∀ e, loan_details_of (Except.error e) = none) := by
  refine ⟨fun h => ?_, fun u hu => ?_, fun u loan_fetch hu => ?_, fun e => rfl⟩
  · simp [get_user_balance_and_loan, get_user_balance_and_loan_with, h]
  · simp [get_user_balance_and_loan, get_user_balance_and_loan_with, hu,
      loan_details_of, get_internal_loan_info]
  · simp [get_user_balance_and_loan_with, hu]

/-- Claim C6 witness: viewing Alice (no loan) succeeds with absent loan
details, and the same view built over a failing inner loan fetch also
succeeds with absent loan details. -/
theorem claim_C6_witness :
    get_user_balance_and_loan sA 1 = (Except.ok ⟨1, "Alice", 0, none⟩, sA) ∧
    get_user_balance_and_loan_with sA 1 (Except.error ⟨500, "lookup failed"⟩) =
      (Except.ok ⟨1, "Alice", 0, none⟩, sA) :=
  ⟨(claim_C6 sA 1).2.1 uAlice (by decide),
    (claim_C6 sA 1).2.2.1 uAlice (Except.error ⟨500, "lookup failed"⟩) (by decide)⟩

/-- Claim C9: a recorded loan is never mutated or deleted by any further
request sequence, and a reachable state's loans table never holds two records
for the same user. -/
theorem claim_C9 (s : BankState) (hs : Reachable s) (uid : Int) (l : Loan)
    (hl : find_loan_by_user_id s uid = some l) :
    (∀ ops : List Op, find_loan_by_user_id (run s ops) uid = some l) ∧
    loanKeysNodup s := by
  constructor
  · exact fun ops => loan_preserved_run ops s uid l hl
  · obtain ⟨ops, rfl⟩ := hs
    exact loanKeysNodup_run ops emptyBank loanKeysNodup_emptyBank

/-- Claim C9 witness: after Alice takes a loan of 50, a further debit request
leaves her loan record exactly as it was, and the loan keys are duplicate
free. -/
theorem claim_C9_witness :
    find_loan_by_user_id (run sL [Op.applyTx 1 ⟨TransactionType.debit, 20⟩]) 1 =
      some ⟨1, 50⟩ ∧
    loanKeysNodup sL :=
  ⟨(claim_C9 sL ⟨opsL, rfl⟩ 1 ⟨1, 50⟩ (by decide)).1
      [Op.applyTx 1 ⟨TransactionType.debit, 20⟩],
    (claim_C9 sL ⟨opsL, rfl⟩ 1 ⟨1, 50⟩ (by decide)).2⟩

/-- Claim C10: each request touches only the target user's entries —
`create_user` changes at most the entry for the input's id and no loans,
`apply_transaction` at most the target user's entry and no loans,
`issue_loan` at most the target user's user and loan entries, and the balance
view and both list requests change nothing at all. -/
theorem claim_C10 (s : BankState) (u0 : User) (uid k : Int)
    (t : Transaction) (amt : Rat) :
    (k ≠ u0.id → find_user_by_id (create_user s u0).2 k = find_user_by_id s k) ∧
    ((create_user s u0).2.loans_db = s.loans_db) ∧
    (k ≠ uid →
      find_user_by_id (perform_transaction s uid t).2 k = find_user_by_id s k) ∧
    ((perform_transaction s uid t).2.loans_db = s.loans_db) ∧
    (k ≠ uid → find_user_by_id (take_loan s uid amt).2 k = find_user_by_id s k) ∧
    (k ≠ uid →
      find_loan_by_user_id (take_loan s uid amt).2 k = find_loan_by_user_id s k) ∧
    ((get_user_balance_and_loan s uid).2 = s) ∧
    ((get_all_users s).2 = s) ∧
    ((get_all_loans s).2 = s) :=
  ⟨fun hk => create_user_users_frame s u0 k hk,
    create_user_loans s u0,
    fun hk => perform_transaction_users_frame s uid k t hk,
    perform_transaction_loans s uid t,
    fun hk => take_loan_users_frame s uid k amt hk,
    fun hk => take_loan_loans_frame s uid k amt hk,
    get_user_balance_and_loan_state s uid,
    rfl, rfl⟩

/-- Claim C10 witness: in the state where Alice holds a loan, requests
targeting user 1 leave the (absent) records of user 2 untouched, and the
read-only requests leave the whole state untouched. -/
theorem claim_C10_witness :
    find_user_by_id (create_user sL ⟨1, "Alice", 9⟩).2 2 = find_user_by_id sL 2 ∧
    (create_user sL ⟨1, "Alice", 9⟩).2.loans_db = sL.loans_db ∧
    find_user_by_id (perform_transaction sL 1 ⟨TransactionType.debit, 20⟩).2 2 =
      find_user_by_id sL 2 ∧
    (perform_transaction sL 1 ⟨TransactionType.debit, 20⟩).2.loans_db = sL.loans_db ∧
    find_user_by_id (take_loan sL 1 5).2 2 = find_user_by_id sL 2 ∧
    find_loan_by_user_id (take_loan sL 1 5).2 2 = find_loan_by_user_id sL 2 ∧
    (get_user_balance_and_loan sL 1).2 = sL ∧
    (get_all_users sL).2 = sL ∧
    (get_all_loans sL).2 = sL := by
  have h := claim_C10 sL ⟨1, "Alice", 9⟩ 1 2 ⟨TransactionType.debit, 20⟩ 5
  exact ⟨h.1 (by decide), h.2.1, h.2.2.1 (by decide), h.2.2.2.1,
    h.2.2.2.2.1 (by decide), h.2.2.2.2.2.1 (by decide), h.2.2.2.2.2.2.1,
    h.2.2.2.2.2.2.2.1, h.2.2.2.2.2.2.2.2⟩

/-- Claim C8 counterexample: `create_user` validates neither the id nor the
name, so the state created from the caller-supplied record with id 0 and
empty name is reachable and stores a user violating both constraints. -/
theorem claim_C8_counterexample :
    Reachable badState ∧
    find_user_by_id badState 0 = some ⟨0, "", 0⟩ ∧
    ¬ (∀ uid u, find_user_by_id badState uid = some u →
        1 ≤ u.id ∧ u.name ≠ "") := by
  refine ⟨⟨[Op.createUser badInput], rfl⟩, by decide, fun h => ?_⟩
  have hc := h 0 ⟨0, "", 0⟩ (by decide)
  exact absurd hc.1 (by decide)

/-- Claim C8 amended: `create_user` stores exactly the caller-supplied id and
name without validation, so the invariant holds precisely for request
sequences in which every created user carries a positive id and a non-empty
name. -/
theorem claim_C8_amended (ops : List Op) (hops : ops.all opOk = true) :
    ∀ uid u, find_user_by_id (run emptyBank ops) uid = some u →
      1 ≤ u.id ∧ u.name ≠ "" :=
  usersWellFormed_run ops emptyBank hops usersWellFormed_emptyBank

/-- Claim C8 amended witness: creating Alice with id 1 and a non-empty name
satisfies the constraints, and the stored record does too. -/
theorem claim_C8_amended_witness : 1 ≤ (1 : Int) ∧ "Alice" ≠ "" :=
  claim_C8_amended [Op.createUser ⟨1, "Alice", 0⟩] (by decide) 1 ⟨1, "Alice", 0⟩
    (by decide)

/-- Claim C7 counterexample: with Alice present and no loan, a loan request
of amount -1 makes the direct-call variant propagate the credit step's 400
while the looped-back variant wraps it in a 500 with a different detail, so
the two variants do not produce the same error outcome on every input. -/
theorem claim_C7_counterexample :
    take_loan_direct sA 1 (-1) =
      (Except.error ⟨400, "Transaction amount must be positive."⟩, sA) ∧
    take_loan_looped sA 1 (-1) =
      (Except.error
        ⟨500, "Failed to credit loan amount to balance. Status: 400. Detail: Transaction amount must be positive."⟩,
        sA) ∧
    take_loan_direct sA 1 (-1) ≠ take_loan_looped sA 1 (-1) := by
  have hd : take_loan_direct sA 1 (-1) =
      (Except.error ⟨400, "Transaction amount must be positive."⟩, sA) := by rfl
  have hw : take_loan_looped sA 1 (-1) =
      (Except.error
        ⟨500, "Failed to credit loan amount to balance. Status: 400. Detail: Transaction amount must be positive."⟩,
        sA) := by rfl
  refine ⟨hd, hw, fun h => ?_⟩
  rw [hd, hw] at h
  injection h with h1 h2
  injection h1 with h1
  injection h1 with hsc hdet
  exact absurd hsc (by decide)

/-- Claim C7 amended: on the endpoints' validated input domain
(`user_id ≥ 1` from the path constraint, `amount > 0` from the body
constraint) the looped-back variant, the direct-call variant and the
canonical `take_loan` agree on the result and the resulting state for every
starting state; outside that domain the looped variant wraps the credit
step's error in a 500 while the direct variant propagates it, both leaving
the state unchanged. -/
theorem claim_C7_amended (s : BankState) (uid : Int) (amt : Rat)
    (huid : 1 ≤ uid) (hamt : 0 < amt) :
    take_loan_looped s uid amt = take_loan s uid amt ∧
    take_loan_direct s uid amt = take_loan s uid amt := by
  refine ⟨?_, take_loan_direct_eq s uid amt⟩
  rcases hu : find_user_by_id s uid with _ | u
  · rw [take_loan_user_absent s uid amt hu]
    simp [take_loan_looped, hu]
  · rcases hl : find_loan_by_user_id s uid with _ | l
    · have hpt := perform_transaction_credit s uid amt u hu hamt
      have hte : transaction_endpoint s uid ⟨TransactionType.credit, amt⟩ =
          (Except.ok { u with balance := u.balance + amt },
            { s with users_db :=
                dictInsert uid { u with balance := u.balance + amt } s.users_db }) := by
        unfold transaction_endpoint
        rw [if_neg (not_lt.mpr huid), hpt]
      rw [take_loan_success s uid amt u hu hl hamt]
      simp [take_loan_looped, hu, hl, hte]
    · rw [take_loan_has_loan s uid amt u l hu hl]
      simp [take_loan_looped, hu, hl]

/-- Claim C7 amended witness: for Alice and a loan of 50, all three loan
implementations agree. -/
theorem claim_C7_amended_witness :
    take_loan_looped sA 1 50 = take_loan sA 1 50 ∧
    take_loan_direct sA 1 50 = take_loan sA 1 50 :=
  claim_C7_amended sA 1 50 (by decide) (by decide)

end Banking
